import Mathlib

/-!
Verification of the conformance scoring engine and vendor-identification
probe chain of the dicomweb-conformance-tests repository.

The scoring engine is embedded from
`src/dicomweb_tests/conformance_report.py`, the vendor probe chain from
`src/dicomweb_tests/vendor_identification.py`, and the outcome record type
from `src/dicomweb_tests/base.py`.  Python floats are modelled as exact
rationals (`ℚ`); Python dictionaries as association lists; the HTTP
transport as an oracle mapping a request to an optional response, where
`none` models any raised `requests` exception (timeout, connection error,
TLS failure).
-/

namespace DicomwebTests

/-! ## String helpers

Python's `pat in s` substring test and `s[:n]` slicing, modelled on the
character list underlying a `String`.  All patterns used by the scoring
engine are non-empty literals, so the Python corner case `"" in s == True`
is never exercised. -/

/-- Occurrence test on character lists: `pat` occurs as a contiguous
sublist of `s`. -/
def charListContains (s pat : List Char) : Bool :=
  match s with
  | [] => pat.isEmpty
  | _ :: rest => pat.isPrefixOf s || charListContains rest pat

/-- Substring occurrence test: models Python's `pat in s`. -/
def strContains (s pat : String) : Bool :=
  charListContains s.data pat.data

/-- Python `s.lower()`, applied character-wise. -/
def strToLower (s : String) : String :=
  ⟨s.data.map Char.toLower⟩

/-- Python slice `s[:n]` (by characters). -/
def strTake (s : String) (n : Nat) : String :=
  ⟨s.data.take n⟩

/-- Portion of `s` before the last occurrence of `pat`, or all of `s` when
`pat` does not occur: models Python's `s.rsplit(pat, 1)[0]`. -/
def rsplitBefore (s pat : String) : String :=
  let parts := s.splitOn pat
  if parts.length ≤ 1 then s else String.intercalate pat parts.dropLast

/-- Python `s.rstrip("/")`. -/
def rstripSlash (s : String) : String :=
  ⟨s.data.reverse.dropWhile (· = '/') |>.reverse⟩

/-! ## Outcome record (src/dicomweb_tests/base.py, class TestResult)

Per the documented contract (base.py docstring and §3 of the design),
`status` ranges over PASS/FAIL/SKIP and `protocol` over QIDO/WADO/STOW,
so both are embedded as closed enumerations.  `response_time` is a float
in the source, embedded as `ℚ`.  The opaque diagnostic maps
`request_details`/`response_details` are carried as association lists;
the scoring engine never inspects them. -/

inductive Status where
  | PASS | FAIL | SKIP
deriving DecidableEq

inductive Protocol where
  | QIDO | WADO | STOW
deriving DecidableEq

/-- Name of a protocol as the Python string constant used throughout
`conformance_report.py`. -/
def Protocol.name : Protocol → String
  | .QIDO => "QIDO"
  | .WADO => "WADO"
  | .STOW => "STOW"

structure TestResult where
  test_name : String
  protocol : Protocol
  status : Status
  message : String
  response_time : ℚ
  request_details : List (String × String)
  response_details : List (String × String)
  timestamp : String
  recommendation : Option String
deriving DecidableEq

/-! ## Rounding (Python `round(x, ndigits)`)

Python rounds half to even.  The source applies it to floats; here it is
modelled exactly on rationals.  No claim below depends on the behaviour at
an exact half-way tie. -/

/-- Round a rational to the nearest integer, ties to even
(Python's `round(x)`). -/
def roundHalfToEven (q : ℚ) : ℤ :=
  let f := ⌊q⌋
  if q - f < 1/2 then f
  else if (1:ℚ)/2 < q - f then f + 1
  else if 2 ∣ f then f else f + 1

/-- Python `round(x, 2)`. -/
def round2 (q : ℚ) : ℚ := (roundHalfToEven (q * 100) : ℚ) / 100

/-- Python `round(x, 3)`. -/
def round3 (q : ℚ) : ℚ := (roundHalfToEven (q * 1000) : ℚ) / 1000

/-! ## Scoring engine (conformance_report.py, `_generate_summary` and
helpers) -/

/-- Count of PASS outcomes: `len([r for r in test_results if r.status == "PASS"])`
(conformance_report.py line 91). -/
def passed_tests (test_results : List TestResult) : Nat :=
  (test_results.filter (fun r => r.status == Status.PASS)).length

/-- Count of FAIL outcomes (line 92). -/
def failed_tests (test_results : List TestResult) : Nat :=
  (test_results.filter (fun r => r.status == Status.FAIL)).length

/-- Count of SKIP outcomes (line 93). -/
def skipped_tests (test_results : List TestResult) : Nat :=
  (test_results.filter (fun r => r.status == Status.SKIP)).length

/-- Raw (unrounded) compliance score, lines 113–115:
`total_possible = total_tests - skipped_tests`;
`compliance_score = (passed_tests / total_possible * 100) if total_possible > 0 else 0`. -/
def compliance_score_raw (test_results : List TestResult) : ℚ :=
  let total_possible := test_results.length - skipped_tests test_results
  if 0 < total_possible then
    (passed_tests test_results : ℚ) / (total_possible : ℚ) * 100
  else 0

/-- Raw (unrounded) overall pass rate, line 129 before rounding:
`(passed_tests / total_tests * 100) if total_tests > 0 else 0`. -/
def pass_rate_raw (test_results : List TestResult) : ℚ :=
  if 0 < test_results.length then
    (passed_tests test_results : ℚ) / (test_results.length : ℚ) * 100
  else 0

/-- Conformance level from the compliance score
(`_determine_conformance_level`, lines 142–153). -/
def determine_conformance_level (compliance_score : ℚ) : String :=
  if 90 ≤ compliance_score then "EXCELLENT"
  else if 75 ≤ compliance_score then "GOOD"
  else if 60 ≤ compliance_score then "ACCEPTABLE"
  else if 40 ≤ compliance_score then "POOR"
  else "NON_COMPLIANT"

/-- Keyword set for critical-failure detection (lines 118–121). -/
def critical_keywords : List String :=
  ["basic", "metadata", "content-type", "authentication", "error"]

/-- An outcome is critical when it failed and its lower-cased name contains
one of the critical keywords (lines 118–121). -/
def is_critical_failure (r : TestResult) : Bool :=
  r.status == Status.FAIL &&
    critical_keywords.any (fun keyword => strContains (strToLower r.test_name) keyword)

/-- Failure buckets of `_generate_recommendations_summary` (lines 160–166). -/
inductive FailureCategory where
  | basic_operations | authentication | performance | error_handling | compliance
deriving DecidableEq

/-- First-matching-rule classification of a failed outcome's name
(lines 170–180): the if/elif chain assigns each FAIL to exactly one
bucket, evaluated on the lower-cased test name. -/
def classify_failure (test_name : String) : FailureCategory :=
  let n := strToLower test_name
  if strContains n "basic" || strContains n "query" ||
     strContains n "retrieve" || strContains n "store" then .basic_operations
  else if strContains n "auth" then .authentication
  else if strContains n "performance" || strContains n "time" then .performance
  else if strContains n "error" || strContains n "invalid" then .error_handling
  else .compliance

/-- Bucket count: how many FAIL outcomes the loop of lines 168–180 adds to
bucket `c`. -/
def category_count (test_results : List TestResult) (c : FailureCategory) : Nat :=
  test_results.countP
    (fun r => r.status == Status.FAIL && classify_failure r.test_name == c)

/-- Advisory emitted when `basic_operations > 2` (line 184). -/
def rec_basic_operations : String :=
  "Focus on implementing core DICOMweb operations (QIDO-RS, WADO-RS, STOW-RS)"

/-- Advisory emitted when `authentication > 0` (line 187). -/
def rec_authentication : String :=
  "Review and implement proper authentication mechanisms"

/-- Advisory emitted when `performance > 1` (line 190). -/
def rec_performance : String :=
  "Optimize server performance and implement caching strategies"

/-- Advisory emitted when `error_handling > 2` (line 193). -/
def rec_error_handling : String :=
  "Improve error response handling and HTTP status code usage"

/-- Advisory emitted when `compliance > 3` (line 196). -/
def rec_compliance : String :=
  "Review DICOMweb specification compliance and implement missing features"

/-- Default advisory when no threshold is crossed (line 199). -/
def rec_default : String :=
  "Continue monitoring and maintaining DICOMweb compliance"

/-- Recommendation synthesis
(`_generate_recommendations_summary`, lines 155–201). -/
def generate_recommendations_summary (test_results : List TestResult) : List String :=
  let basic := category_count test_results .basic_operations
  let auth := category_count test_results .authentication
  let perf := category_count test_results .performance
  let errh := category_count test_results .error_handling
  let comp := category_count test_results .compliance
  let recommendations :=
    (if 2 < basic then [rec_basic_operations] else []) ++
    (if 0 < auth then [rec_authentication] else []) ++
    (if 1 < perf then [rec_performance] else []) ++
    (if 2 < errh then [rec_error_handling] else []) ++
    (if 3 < comp then [rec_compliance] else [])
  if recommendations.isEmpty then [rec_default] else recommendations

/-- Per-protocol statistics entry (lines 96–105).  `pass_rate` is emitted
at full precision in the source (its line 104 applies no rounding). -/
structure ProtocolStats where
  total : Nat
  passed : Nat
  failed : Nat
  skipped : Nat
  pass_rate : ℚ
deriving DecidableEq

/-- Per-protocol breakdown (lines 96–105). -/
def protocol_stats (test_results : List TestResult) (protocol : Protocol) : ProtocolStats :=
  let protocol_results := test_results.filter (fun r => r.protocol == protocol)
  { total := protocol_results.length
    passed := (protocol_results.filter (fun r => r.status == Status.PASS)).length
    failed := (protocol_results.filter (fun r => r.status == Status.FAIL)).length
    skipped := (protocol_results.filter (fun r => r.status == Status.SKIP)).length
    pass_rate :=
      if protocol_results.isEmpty then 0
      else ((protocol_results.filter (fun r => r.status == Status.PASS)).length : ℚ) /
           (protocol_results.length : ℚ) * 100 }

/-- Order in which the three protocol families are enumerated
(line 97). -/
def protocols : List Protocol := [.QIDO, .WADO, .STOW]

/-- Python `max(l) if l else 0`. -/
def max_or_zero : List ℚ → ℚ
  | [] => 0
  | x :: xs => xs.foldl max x

/-- Python `min(l) if l else 0`. -/
def min_or_zero : List ℚ → ℚ
  | [] => 0
  | x :: xs => xs.foldl min x

/-- Response times with a positive value (line 108):
`[r.response_time for r in test_results if r.response_time > 0]`. -/
def response_times (test_results : List TestResult) : List ℚ :=
  (test_results.filter (fun r => decide (0 < r.response_time))).map
    (fun r => r.response_time)

/-- Performance aggregates (lines 108–111 and 131–135, rounded to three
decimals at the output boundary). -/
structure PerformanceMetrics where
  average_response_time : ℚ
  max_response_time : ℚ
  min_response_time : ℚ
  total_response_time : ℚ
deriving DecidableEq

/-- Performance block of the summary (lines 108–111, 131–135). -/
def performance_metrics (test_results : List TestResult) : PerformanceMetrics :=
  let times := response_times test_results
  { average_response_time :=
      round3 (if times.isEmpty then 0 else times.sum / (times.length : ℚ))
    max_response_time := round3 (max_or_zero times)
    min_response_time := round3 (min_or_zero times)
    total_response_time := round3 times.sum }

/-- Summary value object returned by `_generate_summary` (lines 123–140). -/
structure Summary where
  total_tests : Nat
  passed_tests : Nat
  failed_tests : Nat
  skipped_tests : Nat
  compliance_score : ℚ
  pass_rate : ℚ
  protocol_statistics : List (Protocol × ProtocolStats)
  performance_metrics : PerformanceMetrics
  critical_failures : Nat
  conformance_level : String
  recommendations_summary : List String
deriving DecidableEq

/-- The scoring engine (`_generate_summary`, lines 88–140).
`compliance_score` and `pass_rate` are rounded to two decimals at the
boundary (lines 128–129) while `conformance_level` is computed from the
unrounded score (line 138). -/
def generate_summary (test_results : List TestResult) : Summary :=
  { total_tests := test_results.length
    passed_tests := passed_tests test_results
    failed_tests := failed_tests test_results
    skipped_tests := skipped_tests test_results
    compliance_score := round2 (compliance_score_raw test_results)
    pass_rate := round2 (pass_rate_raw test_results)
    protocol_statistics := protocols.map (fun p => (p, protocol_stats test_results p))
    performance_metrics := performance_metrics test_results
    critical_failures := (test_results.filter is_critical_failure).length
    conformance_level := determine_conformance_level (compliance_score_raw test_results)
    recommendations_summary := generate_recommendations_summary test_results }

/-! ## JSON report ordering (conformance_report.py, `_generate_json_report`)

Python's `list.sort`/`sorted` are stable ascending sorts; they are
modelled by a stable insertion sort under a total boolean preorder.
String comparison is Python's code-point lexicographic order, and tuple
keys compare lexicographically with `False < True` on booleans. -/

/-- Code-point lexicographic strict order on character lists (Python
string `<`). -/
def charListLt : List Char → List Char → Bool
  | _, [] => false
  | [], _ :: _ => true
  | a :: as, b :: bs => if a < b then true else if b < a then false else charListLt as bs

/-- Python string `<=`. -/
def strLe (s t : String) : Bool := !(charListLt t.data s.data)

/-- Lexicographic `<=` on a `(bool, str)` sort key, with `False < True`. -/
def keyLe2 (a b : Bool × String) : Bool :=
  if a.1 = b.1 then strLe a.2 b.2 else (!a.1 && b.1)

/-- Stable insertion of `x` after every element `y` of the accumulator
with `le y x`. -/
def insertStable (le : α → α → Bool) (x : α) : List α → List α
  | [] => [x]
  | y :: ys => if le y x then y :: insertStable le x ys else x :: y :: ys

/-- Stable ascending sort under the total preorder `le`, as performed by
Python's `sorted`/`list.sort`. -/
def stableSort (le : α → α → Bool) (l : List α) : List α :=
  l.foldl (fun acc x => insertStable le x acc) []

/-- Sort key comparison of line 225:
`key=lambda x: (x["status"] != "PASS", x["test_name"])`, ascending. -/
def statusNameKeyLe (x y : TestResult) : Bool :=
  keyLe2 (decide (x.status ≠ Status.PASS), x.test_name)
         (decide (y.status ≠ Status.PASS), y.test_name)

/-- Per-protocol outcome list of `test_results_by_protocol`
(lines 206–225): filter to the protocol, then sort by
`(status != "PASS", test_name)` ascending. -/
def test_results_by_protocol (test_results : List TestResult) (protocol : Protocol) :
    List TestResult :=
  stableSort statusNameKeyLe (test_results.filter (fun r => r.protocol == protocol))

/-- Sort key comparison of line 249:
`key=lambda x: (x.protocol, x.status != "PASS", x.test_name)`, ascending. -/
def allResultsKeyLe (x y : TestResult) : Bool :=
  if x.protocol.name = y.protocol.name then statusNameKeyLe x y
  else strLe x.protocol.name y.protocol.name

/-- The `all_test_results` ordering (lines 237–250). -/
def all_test_results (test_results : List TestResult) : List TestResult :=
  stableSort allResultsKeyLe test_results

/-! ## Vendor identification (src/dicomweb_tests/vendor_identification.py)

The HTTP transport is an oracle from `(url, auth)` to an optional
response; `none` models any exception raised by `requests` (caught in
`_safe_get`, lines 48–58).  JSON bodies are an inductive value type;
`body = none` in a response models a body that `resp.json()` fails to
parse (caught in `_try_parse_json`, lines 67–73). -/

inductive Json where
  | null : Json
  | bool : Bool → Json
  | num : Int → Json
  | str : String → Json
  | arr : List Json → Json
  | obj : List (String × Json) → Json

mutual

/-- Python `json.dumps` with its default separators.  Numeric JSON values
are modelled as integers and string escaping is elided; no claim depends
on the rendered text beyond its length and substring content. -/
def Json.dumps : Json → String
  | .null => "null"
  | .bool b => if b then "true" else "false"
  | .num n => toString n
  | .str s => "\"" ++ s ++ "\""
  | .arr xs => "[" ++ String.intercalate ", " (Json.dumpsList xs) ++ "]"
  | .obj kvs => "\x7b" ++ String.intercalate ", " (Json.dumpsObj kvs) ++ "\x7d"

def Json.dumpsList : List Json → List String
  | [] => []
  | x :: xs => Json.dumps x :: Json.dumpsList xs

def Json.dumpsObj : List (String × Json) → List String
  | [] => []
  | kv :: kvs => ("\"" ++ kv.1 ++ "\": " ++ Json.dumps kv.2) :: Json.dumpsObj kvs

end

/-- Python `data.get(k)` on a parsed JSON dictionary. -/
def Json.get (j : Json) (k : String) : Option Json :=
  match j with
  | .obj kvs => (kvs.find? (fun kv => kv.1 == k)).map (fun kv => kv.2)
  | _ => none

/-- Python `k in data` on a parsed JSON dictionary. -/
def Json.hasKey (j : Json) (k : String) : Bool :=
  (j.get k).isSome

/-- Python truthiness of a decoded JSON value. -/
def Json.truthy : Json → Bool
  | .null => false
  | .bool b => b
  | .num n => n != 0
  | .str s => s != ""
  | .arr xs => !xs.isEmpty
  | .obj kvs => !kvs.isEmpty

/-- Python `a or b` over optional JSON values (`None` and falsy values
fall through). -/
def pyOr (a b : Option Json) : Option Json :=
  match a with
  | some v => if v.truthy then some v else b
  | none => b

/-- Python `str(v)` on a decoded JSON value, as used for the version
field; a decoded string renders as itself. -/
def pyStr : Json → String
  | .str s => s
  | j => j.dumps

/-- An HTTP response as observed by the probe code: status code, headers
and the decoded JSON body (`none` when the body does not parse). -/
structure Resp where
  status_code : Nat
  headers : List (String × String)
  body : Option Json

/-- The network: a response for each `(url, auth)` request, or `none`
for a raised exception.  Request timeout and certificate handling are
fixed in `_safe_get` and do not vary per call. -/
def Oracle := String → Option (String × String) → Option Resp

/-- Responses reachable with one fixed auth value, the shape every probe
helper actually consumes. -/
def Fetch := String → Option Resp

/-- Embeds `_build_auth` (lines 42–45): credentials are combined into a basic
auth pair only when both are supplied and non-empty (Python truthiness of
`str`). -/
def build_auth (username password : Option String) : Option (String × String) :=
  match username, password with
  | some u, some p => if u != "" && p != "" then some (u, p) else none
  | _, _ => none

/-- Case-insensitive header lookup with default `""`, as performed on a
`requests` case-insensitive header mapping. -/
def headerGet (headers : List (String × String)) (k : String) : String :=
  match headers.find? (fun kv => strToLower kv.1 == strToLower k) with
  | some kv => kv.2
  | none => ""

/-- Embeds `_extract_server_header` (lines 61–64):
`resp.headers.get("Server", "") or resp.headers.get("X-Powered-By", "")`. -/
def extract_server_header (r : Option Resp) : String :=
  match r with
  | none => ""
  | some resp =>
    let s := headerGet resp.headers "Server"
    if s == "" then headerGet resp.headers "X-Powered-By" else s

/-- Embeds `_try_parse_json` (lines 67–73). -/
def try_parse_json (r : Option Resp) : Option Json :=
  match r with
  | none => none
  | some resp => resp.body

/-- Fixed case-insensitive denylist of sensitive header names
(line 129). -/
def header_blacklist : List String :=
  ["authorization", "proxy-authorization", "cookie", "set-cookie"]

/-- Stored probe request metadata (`raw_probe_metadata["request"]`,
lines 150–156). -/
structure ProbeRequest where
  url : String
  method : String
  headers : List (String × String)

/-- Stored probe response metadata (`raw_probe_metadata["response"]`,
lines 157–161). -/
structure ProbeResponse where
  status_code : Nat
  headers : List (String × String)
  body_preview : String

/-- The `raw_probe_metadata` dictionary built at lines 148–162. -/
structure RawProbe where
  probe_type : String
  request : ProbeRequest
  response : ProbeResponse

/-- A value of the heterogeneous `additional_hints` dictionary. -/
inductive Hint where
  | str : String → Hint
  | json : Json → Hint
  | probe : RawProbe → Hint

/-- The `VendorProfile` dataclass (lines 22–33).  The dataclass has no field for
credentials; `additional_hints` defaults to the empty mapping (the
Python `None` default is always replaced before use). -/
structure VendorProfile where
  vendor : String := "Unknown"
  product : String := "Unknown"
  version : String := ""
  base_url : String := ""
  detection_method : String := ""
  server_header : String := ""
  qido_signature : String := ""
  additional_hints : List (String × Hint) := []

/-- JSON encoding of a stored hint value, as `dataclasses.asdict`
serialises it. -/
def Hint.toJson : Hint → Json
  | .str s => .str s
  | .json j => j
  | .probe p =>
    Json.obj
      [("probe_type", .str p.probe_type),
       ("request", Json.obj
          [("url", .str p.request.url),
           ("method", .str p.request.method),
           ("headers", Json.obj (p.request.headers.map (fun kv => (kv.1, Json.str kv.2))))]),
       ("response", Json.obj
          [("status_code", .num p.response.status_code),
           ("headers", Json.obj (p.response.headers.map (fun kv => (kv.1, Json.str kv.2)))),
           ("body_preview", .str p.response.body_preview)])]

/-- Embeds `VendorProfile.to_dict` (lines 35–39): `asdict(self)` followed by the
defensive `data.pop("credentials", None)`. -/
def VendorProfile.to_dict (p : VendorProfile) : List (String × Json) :=
  ([("vendor", Json.str p.vendor),
    ("product", Json.str p.product),
    ("version", Json.str p.version),
    ("base_url", Json.str p.base_url),
    ("detection_method", Json.str p.detection_method),
    ("server_header", Json.str p.server_header),
    ("qido_signature", Json.str p.qido_signature),
    ("additional_hints", Json.obj (p.additional_hints.map (fun kv => (kv.1, kv.2.toJson))))
   ]).eraseP (fun kv => kv.1 == "credentials")

/-- Root `scheme://host` of a URL, for `urljoin(base_url, "/system")`
with an absolute path. -/
def urlRoot (u : String) : String :=
  match u.splitOn "://" with
  | scheme :: rest :: _ => scheme ++ "://" ++ ⟨rest.data.takeWhile (· ≠ '/')⟩
  | _ => ""

/-- Candidate Orthanc `/system` endpoints (lines 83–88). -/
def orthanc_candidates (base_url : String) : List String :=
  [rsplitBefore (rstripSlash base_url) "/dicom-web" ++ "/system",
   urlRoot base_url ++ "/system"]

/-- One iteration of the candidate loop of `_detect_orthanc`
(lines 90–107): accept the response only when its parsed body is a
dictionary containing a `Version` or `OrthancVersion` marker. -/
def detect_orthanc_at (fetch : Fetch) (base_url url : String) : Option VendorProfile :=
  match fetch url with
  | none => none
  | some resp =>
    match resp.body with
    | some (Json.obj kvs) =>
      let data := Json.obj kvs
      if data.hasKey "Version" || data.hasKey "OrthancVersion" then
        let version :=
          match pyOr (pyOr (data.get "Version") (data.get "OrthancVersion"))
              (some (Json.str "")) with
          | some v => pyStr v
          | none => ""
        some { vendor := "Orthanc"
               product := "Orthanc"
               version := version
               base_url := base_url
               detection_method := "orthanc_system_api:" ++ url
               server_header := extract_server_header (some resp)
               qido_signature := ""
               additional_hints :=
                 [("api", Hint.str "Orthanc /system"),
                  ("plugins", Hint.json ((data.get "Plugins").getD (Json.arr [])))] }
      else none
    | _ => none

/-- Embeds `_detect_orthanc` (lines 76–109): first confident candidate wins. -/
def detect_orthanc (fetch : Fetch) (base_url : String) : Option VendorProfile :=
  (orthanc_candidates base_url).findSome? (detect_orthanc_at fetch base_url)

/-- The QIDO probe URL `urljoin(base_url.rstrip("/") + "/", "studies?limit=1")`
(line 123; a relative join appends to the base path). -/
def qido_probe_url (base_url : String) : String :=
  rstripSlash base_url ++ "/" ++ "studies?limit=1"

/-- Accept header sent by the QIDO probe (line 124). -/
def qido_accept : String := "application/dicom+json, application/json;q=0.9"

/-- Embeds `_detect_from_qido` (lines 112–193).  Returns the optional heuristic
profile together with the captured server header, the derived signature
string and the raw probe metadata (`none` stands for the empty `{}`
returned when the probe request fails, line 126). -/
def detect_from_qido (fetch : Fetch) (base_url : String) :
    Option VendorProfile × String × String × Option RawProbe :=
  let qido_url := qido_probe_url base_url
  match fetch qido_url with
  | none => (none, "", "", none)
  | some resp =>
    let safe_headers :=
      resp.headers.filter (fun kv => !(header_blacklist.contains (strToLower kv.1)))
    let server_header := extract_server_header (some resp)
    let body := resp.body
    let body_str :=
      match body with
      | none => ""
      | some b => strTake (Json.dumps b) 2048
    let signature :=
      "status=" ++ toString resp.status_code ++ ";server=" ++ server_header ++
        ";len=" ++ toString body_str.length
    let raw_probe : RawProbe :=
      { probe_type := "qido_studies_limit_1"
        request := { url := qido_url, method := "GET", headers := [("Accept", qido_accept)] }
        response := { status_code := resp.status_code
                      headers := safe_headers
                      body_preview := body_str } }
    if strContains server_header "Orthanc" ||
       (match body with
        | some (Json.obj kvs) => strContains (Json.dumps (Json.obj kvs)) "Orthanc"
        | _ => false) then
      (some { vendor := "Orthanc"
              product := "Orthanc (heuristic)"
              version := ""
              base_url := base_url
              detection_method := "qido_header_or_body_contains_Orthanc"
              server_header := server_header
              qido_signature := signature
              additional_hints := [("qido_probe", Hint.probe raw_probe)] },
       server_header, signature, some raw_probe)
    else if strContains (strToLower server_header) "dcm4chee" then
      (some { vendor := "dcm4chee"
              product := "dcm4chee-arc (heuristic)"
              version := ""
              base_url := base_url
              detection_method := "server_header_contains_dcm4chee"
              server_header := server_header
              qido_signature := signature
              additional_hints := [("qido_probe", Hint.probe raw_probe)] },
       server_header, signature, some raw_probe)
    else
      (none, server_header, signature, some raw_probe)

/-- Python `dict.setdefault(k, v)` on an association list. -/
def setdefault (hints : List (String × Hint)) (k : String) (v : Hint) :
    List (String × Hint) :=
  if (hints.find? (fun kv => kv.1 == k)).isSome then hints else hints ++ [(k, v)]

/-- Core of `identify_vendor` (lines 196–243) once the credentials have
been folded into the transport: ordered strategy chain with the
"unknown" fallback. -/
def identify_vendor_fetch (fetch : Fetch) (base_url : String) : VendorProfile :=
  match detect_orthanc fetch base_url with
  | some orthanc_profile => orthanc_profile
  | none =>
    match detect_from_qido fetch base_url with
    | (some qido_profile, _, _, raw_probe) =>
      (match raw_probe with
       | some rp =>
         { qido_profile with
             additional_hints := setdefault qido_profile.additional_hints "qido_probe" (Hint.probe rp) }
       | none => qido_profile)
    | (none, server_header, qido_sig, raw_probe) =>
      { vendor := "Unknown"
        product := "Unknown"
        version := ""
        base_url := base_url
        detection_method := "heuristic_unknown"
        server_header := server_header
        qido_signature := qido_sig
        additional_hints :=
          [("note", Hint.str "Unable to confidently determine vendor; review headers and deployment docs."),
           ("server_header", Hint.str server_header),
           ("qido_signature", Hint.str qido_sig),
           ("qido_probe", match raw_probe with
                          | some rp => Hint.probe rp
                          | none => Hint.json (Json.obj []))] }

/-- Embeds `identify_vendor` (lines 196–243): the credentials are used only to
form the transient auth parameter of each HTTP request. -/
def identify_vendor (o : Oracle) (base_url : String)
    (username password : Option String) : VendorProfile :=
  identify_vendor_fetch (fun url => o url (build_auth username password)) base_url

/-! ## Redaction predicates for the probe chain -/

/-- Every header name in the mapping avoids the sensitive denylist
(case-insensitively). -/
def headerKeysOk (headers : List (String × String)) : Prop :=
  ∀ kv ∈ headers, strToLower kv.1 ∉ header_blacklist

/-- Stored probe metadata is redacted: both stored header mappings avoid
the denylist and the body preview is truncated to 2048 characters. -/
def RawProbe.redacted (p : RawProbe) : Prop :=
  headerKeysOk p.request.headers ∧ headerKeysOk p.response.headers ∧
    p.response.body_preview.length ≤ 2048

/-- A hint value is redacted when any probe metadata it stores is. -/
def Hint.redacted : Hint → Prop
  | .probe p => p.redacted
  | _ => True

/-- A profile is redacted: no hint is keyed by a denylisted header name
and every stored probe metadata record is redacted. -/
def VendorProfile.redactionOk (prof : VendorProfile) : Prop :=
  ∀ kv ∈ prof.additional_hints, strToLower kv.1 ∉ header_blacklist ∧ kv.2.redacted

/-! ## Concrete fixtures used by the boundary theorems -/

/-- Fixture: three QIDO checks, one passed and two failed. -/
def c7_results : List TestResult :=
  [{ test_name := "Alpha", protocol := Protocol.QIDO, status := Status.PASS,
     message := "m", response_time := 0, request_details := [],
     response_details := [], timestamp := "t", recommendation := none },
   { test_name := "Beta", protocol := Protocol.QIDO, status := Status.FAIL,
     message := "m", response_time := 0, request_details := [],
     response_details := [], timestamp := "t", recommendation := none },
   { test_name := "Gamma", protocol := Protocol.QIDO, status := Status.FAIL,
     message := "m", response_time := 0, request_details := [],
     response_details := [], timestamp := "t", recommendation := none }]

/-- Fixture: a failed QIDO check. -/
def c9_fail : TestResult :=
  { test_name := "Basic Query", protocol := Protocol.QIDO, status := Status.FAIL,
    message := "m", response_time := 0, request_details := [],
    response_details := [], timestamp := "t", recommendation := none }

/-- Fixture: a passed QIDO check whose name sorts after the failed one. -/
def c9_pass : TestResult :=
  { test_name := "Zeta Retrieval", protocol := Protocol.QIDO, status := Status.PASS,
    message := "m", response_time := 0, request_details := [],
    response_details := [], timestamp := "t", recommendation := none }

/-! ## Helper lemmas -/

theorem counts_as_countP (rs : List TestResult) :
    passed_tests rs = rs.countP (fun r => r.status == Status.PASS) ∧
    failed_tests rs = rs.countP (fun r => r.status == Status.FAIL) ∧
    skipped_tests rs = rs.countP (fun r => r.status == Status.SKIP) := by
  refine ⟨?_, ?_, ?_⟩ <;>
    simp [passed_tests, failed_tests, skipped_tests, List.countP_eq_length_filter]

theorem status_partition (rs : List TestResult) :
    passed_tests rs + failed_tests rs + skipped_tests rs = rs.length := by
  induction rs with
  | nil => rfl
  | cons r t ih =>
    simp only [passed_tests, failed_tests, skipped_tests, List.filter_cons] at ih ⊢
    cases h : r.status
    · rw [if_pos (by decide), if_neg (by decide), if_neg (by decide)]
      simp only [List.length_cons]
      omega
    · rw [if_neg (by decide), if_pos (by decide), if_neg (by decide)]
      simp only [List.length_cons]
      omega
    · rw [if_neg (by decide), if_neg (by decide), if_pos (by decide)]
      simp only [List.length_cons]
      omega

theorem skipped_le_total (rs : List TestResult) : skipped_tests rs ≤ rs.length :=
  List.length_filter_le _ rs

/-! ## Claims -/

/-- C1: the compliance score is `passed/(total-skipped)*100` when
`total-skipped > 0` and `0` otherwise (the summary stores this value
rounded to two decimals); it always lies in `[0, 100]`, and it equals
`100` iff `failed = 0` and `total - skipped > 0`. -/
theorem C1_compliance_score_spec (rs : List TestResult) :
    compliance_score_raw rs =
      (if 0 < rs.length - skipped_tests rs then
        (passed_tests rs : ℚ) / ((rs.length - skipped_tests rs : ℕ) : ℚ) * 100
      else 0) ∧
    (generate_summary rs).compliance_score = round2 (compliance_score_raw rs) ∧
    0 ≤ compliance_score_raw rs ∧ compliance_score_raw rs ≤ 100 ∧
    (compliance_score_raw rs = 100 ↔
      failed_tests rs = 0 ∧ 0 < rs.length - skipped_tests rs) := by
  have hpart := status_partition rs
  have hD : rs.length - skipped_tests rs = passed_tests rs + failed_tests rs := by omega
  refine ⟨rfl, rfl, ?_, ?_, ?_⟩
  · simp only [compliance_score_raw]
    split
    · positivity
    · exact le_rfl
  · simp only [compliance_score_raw, hD]
    split
    · rename_i h
      have hpos : (0:ℚ) < ((passed_tests rs + failed_tests rs : ℕ) : ℚ) := by
        exact_mod_cast h
      have hle : (passed_tests rs : ℚ) ≤ ((passed_tests rs + failed_tests rs : ℕ) : ℚ) := by
        exact_mod_cast Nat.le_add_right _ _
      calc (passed_tests rs : ℚ) / ((passed_tests rs + failed_tests rs : ℕ) : ℚ) * 100
          ≤ 1 * 100 := by
            apply mul_le_mul_of_nonneg_right _ (by norm_num)
            exact (div_le_one hpos).mpr hle
        _ = 100 := by norm_num
    · norm_num
  · simp only [compliance_score_raw, hD]
    split
    · rename_i h
      have hpos : (0:ℚ) < ((passed_tests rs + failed_tests rs : ℕ) : ℚ) := by
        exact_mod_cast h
      constructor
      · intro heq
        refine ⟨?_, by omega⟩
        rw [div_mul_eq_mul_div, div_eq_iff (ne_of_gt hpos)] at heq
        have : ((failed_tests rs : ℚ)) = 0 := by push_cast at heq ⊢; linarith
        exact_mod_cast this
      · rintro ⟨hF, -⟩
        rw [hF]
        have hP : 0 < passed_tests rs := by omega
        have hPne : ((passed_tests rs : ℚ)) ≠ 0 := by
          exact_mod_cast Nat.pos_iff_ne_zero.mp hP
        push_cast
        field_simp
    · rename_i h
      constructor
      · intro h0
        norm_num at h0
      · rintro ⟨-, hpos⟩
        exact absurd hpos h

/-- C2: the conformance level is determined by inclusive lower-bound
thresholds 90/75/60/40 on the compliance score; an empty run scores 0 and
is NON_COMPLIANT; a score of exactly 40 is POOR and 39.99 is
NON_COMPLIANT. -/
theorem C2_conformance_level_thresholds :
    (∀ s : ℚ, determine_conformance_level s = "EXCELLENT" ↔ 90 ≤ s) ∧
    (∀ s : ℚ, determine_conformance_level s = "GOOD" ↔ 75 ≤ s ∧ s < 90) ∧
    (∀ s : ℚ, determine_conformance_level s = "ACCEPTABLE" ↔ 60 ≤ s ∧ s < 75) ∧
    (∀ s : ℚ, determine_conformance_level s = "POOR" ↔ 40 ≤ s ∧ s < 60) ∧
    (∀ s : ℚ, determine_conformance_level s = "NON_COMPLIANT" ↔ s < 40) ∧
    (generate_summary []).compliance_score = 0 ∧
    (generate_summary []).conformance_level = "NON_COMPLIANT" ∧
    determine_conformance_level 90 = "EXCELLENT" ∧
    determine_conformance_level (8999/100) = "GOOD" ∧
    determine_conformance_level 60 = "ACCEPTABLE" ∧
    determine_conformance_level (5999/100) = "POOR" ∧
    determine_conformance_level 40 = "POOR" ∧
    determine_conformance_level (3999/100) = "NON_COMPLIANT" := by
  have he : ∀ s : ℚ, determine_conformance_level s = "EXCELLENT" ↔ 90 ≤ s := by
    intro s
    rw [determine_conformance_level]
    split_ifs with h1 h2 h3 h4
    · exact iff_of_true rfl h1
    all_goals exact iff_of_false (by decide) h1
  have hg : ∀ s : ℚ, determine_conformance_level s = "GOOD" ↔ 75 ≤ s ∧ s < 90 := by
    intro s
    rw [determine_conformance_level]
    split_ifs with h1 h2 h3 h4
    · exact iff_of_false (by decide) (fun hr => not_le.mpr hr.2 h1)
    · exact iff_of_true rfl ⟨h2, not_le.mp h1⟩
    all_goals exact iff_of_false (by decide) (fun hr => h2 hr.1)
  have ha : ∀ s : ℚ, determine_conformance_level s = "ACCEPTABLE" ↔ 60 ≤ s ∧ s < 75 := by
    intro s
    rw [determine_conformance_level]
    split_ifs with h1 h2 h3 h4
    · refine iff_of_false (by decide) ?_
      rintro ⟨-, hlt⟩
      linarith
    · exact iff_of_false (by decide) (fun hr => not_le.mpr hr.2 h2)
    · exact iff_of_true rfl ⟨h3, not_le.mp h2⟩
    all_goals exact iff_of_false (by decide) (fun hr => h3 hr.1)
  have hp : ∀ s : ℚ, determine_conformance_level s = "POOR" ↔ 40 ≤ s ∧ s < 60 := by
    intro s
    rw [determine_conformance_level]
    split_ifs with h1 h2 h3 h4
    · refine iff_of_false (by decide) ?_
      rintro ⟨-, hlt⟩
      linarith
    · refine iff_of_false (by decide) ?_
      rintro ⟨-, hlt⟩
      linarith
    · exact iff_of_false (by decide) (fun hr => not_le.mpr hr.2 h3)
    · exact iff_of_true rfl ⟨h4, not_le.mp h3⟩
    · exact iff_of_false (by decide) (fun hr => h4 hr.1)
  have hn : ∀ s : ℚ, determine_conformance_level s = "NON_COMPLIANT" ↔ s < 40 := by
    intro s
    rw [determine_conformance_level]
    split_ifs with h1 h2 h3 h4
    · refine iff_of_false (by decide) ?_
      intro hlt
      linarith
    · refine iff_of_false (by decide) ?_
      intro hlt
      linarith
    · refine iff_of_false (by decide) ?_
      intro hlt
      linarith
    · exact iff_of_false (by decide) (fun hlt => not_le.mpr hlt h4)
    · exact iff_of_true rfl (not_le.mp h4)
  refine ⟨he, hg, ha, hp, hn, ?_, ?_, ?_, ?_, ?_, ?_, ?_, ?_⟩
  · show round2 (compliance_score_raw []) = 0
    have h0 : compliance_score_raw [] = 0 := rfl
    rw [h0, round2, roundHalfToEven]
    norm_num
  · show determine_conformance_level (compliance_score_raw []) = "NON_COMPLIANT"
    have h0 : compliance_score_raw [] = 0 := rfl
    rw [h0]
    exact (hn 0).mpr (by norm_num)
  · exact (he 90).mpr le_rfl
  · exact (hg (8999/100)).mpr (by norm_num)
  · exact (ha 60).mpr (by norm_num)
  · exact (hp (5999/100)).mpr (by norm_num)
  · exact (hp 40).mpr (by norm_num)
  · exact (hn (3999/100)).mpr (by norm_num)

theorem roundHalfToEven_intCast (k : ℤ) : roundHalfToEven (k : ℚ) = k := by
  rw [roundHalfToEven]
  norm_num [Int.floor_intCast]

theorem round2_idem (q : ℚ) : round2 (round2 q) = round2 q := by
  rw [round2, round2]
  have hmul : ((roundHalfToEven (q * 100) : ℚ) / 100) * 100 =
      (roundHalfToEven (q * 100) : ℚ) := by
    field_simp
  rw [hmul, roundHalfToEven_intCast]

/-- C7 (amended): the top-level `compliance_score` and `pass_rate` of the
summary are rounded to two decimals at the output boundary (they are
fixed points of `round2`), the per-protocol `pass_rate` entries are
emitted at full precision with no rounding applied, and the conformance
level is determined from the full-precision (unrounded) compliance
score. -/
theorem C7_rounding_at_boundary (rs : List TestResult) :
    (generate_summary rs).compliance_score = round2 (compliance_score_raw rs) ∧
    (generate_summary rs).pass_rate = round2 (pass_rate_raw rs) ∧
    round2 ((generate_summary rs).compliance_score) =
      (generate_summary rs).compliance_score ∧
    round2 ((generate_summary rs).pass_rate) = (generate_summary rs).pass_rate ∧
    (∀ p : Protocol, (protocol_stats rs p).pass_rate =
      (if (rs.filter (fun r => r.protocol == p)).isEmpty then 0
       else (((rs.filter (fun r => r.protocol == p)).filter
                (fun r => r.status == Status.PASS)).length : ℚ) /
            ((rs.filter (fun r => r.protocol == p)).length : ℚ) * 100)) ∧
    (generate_summary rs).conformance_level =
      determine_conformance_level (compliance_score_raw rs) :=
  ⟨rfl, rfl, round2_idem _, round2_idem _, fun _ => rfl, rfl⟩

/-- C7 counterexample: on one passed and two failed QIDO checks the
per-protocol pass rate stored in the summary is `100/3`, which is not a
two-decimal value: rounding it to two decimals changes it, and it is not
an integer number of hundredths.  The claim that every percentage in the
summary is rounded to two decimal places — including the per-protocol
`pass_rate` — is therefore false on this input. -/
theorem C7_counterexample :
    (generate_summary c7_results).protocol_statistics =
      [(Protocol.QIDO, protocol_stats c7_results Protocol.QIDO),
       (Protocol.WADO, protocol_stats c7_results Protocol.WADO),
       (Protocol.STOW, protocol_stats c7_results Protocol.STOW)] ∧
    (protocol_stats c7_results Protocol.QIDO).pass_rate = 100 / 3 ∧
    round2 ((100 : ℚ) / 3) ≠ (100 : ℚ) / 3 ∧
    ¬ ∃ k : ℤ, (100 : ℚ) / 3 = (k : ℚ) / 100 := by
  have hfloor : (⌊(100 : ℚ) / 3 * 100⌋ : ℤ) = 3333 := by
    rw [Int.floor_eq_iff]
    constructor <;> norm_num
  refine ⟨rfl, ?_, ?_, ?_⟩
  · simp [protocol_stats, c7_results, List.filter_cons, beq_iff_eq]
    norm_num
  · rw [round2, roundHalfToEven, hfloor]
    norm_num
  · rintro ⟨k, hk⟩
    have h3 : (10000 : ℚ) = 3 * (k : ℚ) := by
      field_simp at hk
      linarith
    have h4 : (10000 : ℤ) = 3 * k := by exact_mod_cast h3
    omega

/-- C9: on a failed "Basic Query" and a passed "Zeta Retrieval" (both
QIDO), both report orderings place the PASS outcome first: the ascending
sort on the key `status != "PASS"` orders `False` (PASS) before `True`
(FAIL/SKIP), contradicting the documented "failures first" ordering. -/
theorem C9_pass_sorts_before_failures :
    test_results_by_protocol [c9_fail, c9_pass] Protocol.QIDO = [c9_pass, c9_fail] ∧
    all_test_results [c9_fail, c9_pass] = [c9_pass, c9_fail] ∧
    c9_fail.status = Status.FAIL ∧ c9_pass.status = Status.PASS :=
  ⟨rfl, rfl, rfl, rfl⟩

theorem status_beq_decide (a b : Status) : (a == b) = decide (a = b) := rfl

theorem category_beq_decide (a b : FailureCategory) : (a == b) = decide (a = b) := rfl

theorem classify_total (l : List TestResult) :
    l.countP (fun r => classify_failure r.test_name == FailureCategory.basic_operations) +
      l.countP (fun r => classify_failure r.test_name == FailureCategory.authentication) +
      l.countP (fun r => classify_failure r.test_name == FailureCategory.performance) +
      l.countP (fun r => classify_failure r.test_name == FailureCategory.error_handling) +
      l.countP (fun r => classify_failure r.test_name == FailureCategory.compliance) =
      l.length := by
  induction l with
  | nil => rfl
  | cons r t ih =>
    simp only [List.countP_cons, List.length_cons]
    cases hc : classify_failure r.test_name <;> simp [hc, beq_iff_eq] <;> omega

theorem category_count_as_filter (rs : List TestResult) (c : FailureCategory) :
    category_count rs c =
      (rs.filter (fun r => r.status == Status.FAIL)).countP
        (fun r => classify_failure r.test_name == c) := by
  rw [category_count, List.countP_filter]
  apply List.countP_congr
  intro r _
  rw [Bool.and_comm]

theorem category_partition (rs : List TestResult) :
    category_count rs .basic_operations + category_count rs .authentication +
      category_count rs .performance + category_count rs .error_handling +
      category_count rs .compliance = failed_tests rs := by
  rw [category_count_as_filter, category_count_as_filter, category_count_as_filter,
    category_count_as_filter, category_count_as_filter, failed_tests]
  exact classify_total _

/-- C3: recommendation synthesis classifies each FAIL outcome into exactly
one bucket (the bucket counts sum to the number of failures), emits the
fixed advisory list determined by the crossed thresholds, emits exactly
the single default advisory iff no threshold is crossed, and never
returns an empty list. -/
theorem C3_recommendation_synthesis (rs : List TestResult) :
    generate_recommendations_summary rs ≠ [] ∧
    category_count rs .basic_operations + category_count rs .authentication +
      category_count rs .performance + category_count rs .error_handling +
      category_count rs .compliance = failed_tests rs ∧
    (generate_recommendations_summary rs = [rec_default] ↔
      ¬(2 < category_count rs .basic_operations ∨
        0 < category_count rs .authentication ∨
        1 < category_count rs .performance ∨
        2 < category_count rs .error_handling ∨
        3 < category_count rs .compliance)) ∧
    generate_recommendations_summary rs =
      (if
        ((if 2 < category_count rs .basic_operations then [rec_basic_operations] else []) ++
         (if 0 < category_count rs .authentication then [rec_authentication] else []) ++
         (if 1 < category_count rs .performance then [rec_performance] else []) ++
         (if 2 < category_count rs .error_handling then [rec_error_handling] else []) ++
         (if 3 < category_count rs .compliance then [rec_compliance] else [])) = []
      then [rec_default]
      else
        (if 2 < category_count rs .basic_operations then [rec_basic_operations] else []) ++
        (if 0 < category_count rs .authentication then [rec_authentication] else []) ++
        (if 1 < category_count rs .performance then [rec_performance] else []) ++
        (if 2 < category_count rs .error_handling then [rec_error_handling] else []) ++
        (if 3 < category_count rs .compliance then [rec_compliance] else [])) := by
  refine ⟨?_, category_partition rs, ?_, ?_⟩ <;>
    · by_cases h1 : 2 < category_count rs .basic_operations <;>
      by_cases h2 : 0 < category_count rs .authentication <;>
      by_cases h3 : 1 < category_count rs .performance <;>
      by_cases h4 : 2 < category_count rs .error_handling <;>
      by_cases h5 : 3 < category_count rs .compliance <;>
        simp [generate_recommendations_summary, h1, h2, h3, h4, h5,
          rec_basic_operations, rec_authentication, rec_performance,
          rec_error_handling, rec_compliance, rec_default]

/-- C8: `critical_failures` counts exactly the FAIL outcomes whose
lower-cased test name contains at least one of the fixed keywords
basic/metadata/content-type/authentication/error. -/
theorem C8_critical_failures_count (rs : List TestResult) :
    (generate_summary rs).critical_failures =
      (rs.filter (fun r => decide (r.status = Status.FAIL ∧
        ∃ kw ∈ critical_keywords, strContains (strToLower r.test_name) kw = true))).length := by
  show (rs.filter is_critical_failure).length = _
  congr 1
  apply List.filter_congr
  intro r _
  rw [is_critical_failure, Bool.eq_iff_iff]
  simp [Bool.and_eq_true, List.any_eq_true, decide_eq_true_eq, beq_iff_eq]

theorem isEmpty_congr {α : Type} {l l' : List α} (h : l.length = l'.length) :
    l.isEmpty = l'.isEmpty := by
  cases l <;> cases l' <;> simp_all

theorem foldl_op_perm (f : ℚ → ℚ → ℚ) (hrc : ∀ a x y, f (f a x) y = f (f a y) x)
    {l l' : List ℚ} (h : l.Perm l') : ∀ a, l.foldl f a = l'.foldl f a := by
  induction h with
  | nil => intro a; rfl
  | cons x _ ih => intro a; simp only [List.foldl_cons]; exact ih (f a x)
  | swap x y l => intro a; simp only [List.foldl_cons]; rw [hrc]
  | trans _ _ ih1 ih2 => intro a; exact (ih1 a).trans (ih2 a)

theorem max_or_zero_perm {l l' : List ℚ} (h : l.Perm l') :
    max_or_zero l = max_or_zero l' := by
  induction h with
  | nil => rfl
  | cons x h ih =>
    simp only [max_or_zero]
    exact foldl_op_perm max
      (fun a u v => by rw [max_assoc, max_comm u v, max_assoc]) h x
  | swap x y l =>
    simp only [max_or_zero, List.foldl_cons]
    rw [max_comm y x]
  | trans _ _ ih1 ih2 => exact ih1.trans ih2

theorem min_or_zero_perm {l l' : List ℚ} (h : l.Perm l') :
    min_or_zero l = min_or_zero l' := by
  induction h with
  | nil => rfl
  | cons x h ih =>
    simp only [min_or_zero]
    exact foldl_op_perm min (fun a u v => min_right_comm a u v) h x
  | swap x y l =>
    simp only [min_or_zero, List.foldl_cons]
    rw [min_comm y x]
  | trans _ _ ih1 ih2 => exact ih1.trans ih2

theorem compliance_score_raw_perm {rs rs' : List TestResult} (h : rs.Perm rs') :
    compliance_score_raw rs = compliance_score_raw rs' := by
  simp only [compliance_score_raw, skipped_tests, passed_tests]
  rw [h.length_eq, (h.filter _).length_eq, (h.filter _).length_eq]

theorem pass_rate_raw_perm {rs rs' : List TestResult} (h : rs.Perm rs') :
    pass_rate_raw rs = pass_rate_raw rs' := by
  simp only [pass_rate_raw, passed_tests]
  rw [h.length_eq, (h.filter _).length_eq]

theorem protocol_stats_perm {rs rs' : List TestResult} (h : rs.Perm rs') (p : Protocol) :
    protocol_stats rs p = protocol_stats rs' p := by
  have hp : (rs.filter (fun r => r.protocol == p)).Perm
      (rs'.filter (fun r => r.protocol == p)) := h.filter _
  have hlen := hp.length_eq
  have hpass := (hp.filter (fun r => r.status == Status.PASS)).length_eq
  have hfail := (hp.filter (fun r => r.status == Status.FAIL)).length_eq
  have hskip := (hp.filter (fun r => r.status == Status.SKIP)).length_eq
  simp only [protocol_stats]
  rw [ProtocolStats.mk.injEq]
  exact ⟨hlen, hpass, hfail, hskip, by rw [isEmpty_congr hlen, hpass, hlen]⟩

theorem performance_metrics_perm {rs rs' : List TestResult} (h : rs.Perm rs') :
    performance_metrics rs = performance_metrics rs' := by
  have ht : (response_times rs).Perm (response_times rs') := (h.filter _).map _
  have hsum := ht.sum_eq
  have hlen := ht.length_eq
  simp only [performance_metrics]
  rw [PerformanceMetrics.mk.injEq]
  refine ⟨?_, ?_, ?_, ?_⟩
  · rw [isEmpty_congr hlen, hsum, hlen]
  · rw [max_or_zero_perm ht]
  · rw [min_or_zero_perm ht]
  · rw [hsum]

theorem category_count_perm {rs rs' : List TestResult} (h : rs.Perm rs')
    (c : FailureCategory) : category_count rs c = category_count rs' c :=
  h.countP_eq _

theorem generate_recommendations_summary_perm {rs rs' : List TestResult}
    (h : rs.Perm rs') :
    generate_recommendations_summary rs = generate_recommendations_summary rs' := by
  simp only [generate_recommendations_summary]
  rw [category_count_perm h, category_count_perm h, category_count_perm h,
    category_count_perm h, category_count_perm h]

/-- C6: the whole summary — counts, pass rate, compliance score,
conformance level, per-protocol statistics, performance aggregates,
critical-failure count and recommendation synthesis — is invariant under
permutation of the input outcome list. -/
theorem C6_permutation_invariance (rs rs' : List TestResult) (h : rs.Perm rs') :
    generate_summary rs = generate_summary rs' := by
  simp only [generate_summary]
  rw [Summary.mk.injEq]
  refine ⟨h.length_eq, (h.filter _).length_eq, (h.filter _).length_eq,
    (h.filter _).length_eq, ?_, ?_, ?_, performance_metrics_perm h,
    (h.filter _).length_eq, ?_, generate_recommendations_summary_perm h⟩
  · rw [compliance_score_raw_perm h]
  · rw [pass_rate_raw_perm h]
  · apply List.map_congr_left
    intro p _
    rw [protocol_stats_perm h p]
  · rw [compliance_score_raw_perm h]

/-- C6 witness: a concrete two-element transposition. -/
theorem C6_permutation_invariance_witness :
    generate_summary
        [{ test_name := "Basic Study Query", protocol := Protocol.QIDO,
           status := Status.FAIL, message := "m1", response_time := 2,
           request_details := [], response_details := [], timestamp := "t1",
           recommendation := none },
         { test_name := "Retrieve Instance", protocol := Protocol.WADO,
           status := Status.PASS, message := "m2", response_time := 1,
           request_details := [], response_details := [], timestamp := "t2",
           recommendation := none }] =
      generate_summary
        [{ test_name := "Retrieve Instance", protocol := Protocol.WADO,
           status := Status.PASS, message := "m2", response_time := 1,
           request_details := [], response_details := [], timestamp := "t2",
           recommendation := none },
         { test_name := "Basic Study Query", protocol := Protocol.QIDO,
           status := Status.FAIL, message := "m1", response_time := 2,
           request_details := [], response_details := [], timestamp := "t1",
           recommendation := none }] :=
  C6_permutation_invariance _ _ (List.Perm.swap _ _ [])

/-- C10: the PASS/FAIL/SKIP counts partition the total, and every
critical failure is among the failures. -/
theorem C10_count_invariants (rs : List TestResult) :
    (generate_summary rs).passed_tests + (generate_summary rs).failed_tests +
        (generate_summary rs).skipped_tests = (generate_summary rs).total_tests ∧
    (generate_summary rs).critical_failures ≤ (generate_summary rs).failed_tests := by
  constructor
  · exact status_partition rs
  · show (rs.filter is_critical_failure).length ≤ failed_tests rs
    rw [failed_tests, ← List.countP_eq_length_filter, ← List.countP_eq_length_filter]
    apply List.countP_mono_left
    intro r _ h
    rw [is_critical_failure, Bool.and_eq_true] at h
    exact h.1

theorem findSome?_forall {α β : Type} (f : α → Option β) (P : β → Prop)
    (hf : ∀ a b, f a = some b → P b) :
    ∀ (l : List α) (b : β), l.findSome? f = some b → P b := by
  intro l
  induction l with
  | nil => intro b h; cases h
  | cons a t ih =>
    intro b h
    rw [List.findSome?_cons] at h
    cases hfa : f a with
    | none => rw [hfa] at h; exact ih b h
    | some b0 =>
      rw [hfa] at h
      injection h with hbb
      subst hbb
      exact hf a b0 hfa

theorem detect_orthanc_at_redactionOk (fetch : Fetch) (base url : String)
    (prof : VendorProfile) (h : detect_orthanc_at fetch base url = some prof) :
    prof.redactionOk := by
  rw [detect_orthanc_at] at h
  split at h
  · cases h
  · dsimp only [] at h
    split at h
    · split at h
      · injection h with hpq
        subst hpq
        intro kv hkv
        simp only [List.mem_cons, List.not_mem_nil, or_false] at hkv
        rcases hkv with rfl | rfl
        · exact ⟨show strToLower "api" ∉ header_blacklist by decide, trivial⟩
        · exact ⟨show strToLower "plugins" ∉ header_blacklist by decide, trivial⟩
      · cases h
    · cases h

theorem detect_orthanc_redactionOk (fetch : Fetch) (base : String)
    (prof : VendorProfile) (h : detect_orthanc fetch base = some prof) :
    prof.redactionOk := by
  rw [detect_orthanc] at h
  exact findSome?_forall _ VendorProfile.redactionOk
    (fun u q hq => detect_orthanc_at_redactionOk fetch base u q hq) _ prof h

theorem safe_headers_ok (headers : List (String × String)) :
    headerKeysOk (headers.filter (fun kv => !(header_blacklist.contains (strToLower kv.1)))) := by
  intro kv hkv
  have hp := List.of_mem_filter hkv
  simp only [Bool.not_eq_true'] at hp
  intro hmem
  simp_all

theorem strTake_le (s : String) (n : Nat) : (strTake s n).length ≤ n :=
  List.length_take_le n s.data

theorem detect_from_qido_redacted (fetch : Fetch) (base : String) :
    (∀ prof, (detect_from_qido fetch base).1 = some prof → prof.redactionOk) ∧
    (∀ rp, (detect_from_qido fetch base).2.2.2 = some rp → rp.redacted) := by
  rw [detect_from_qido]
  cases hf : fetch (qido_probe_url base) with
  | none =>
    exact ⟨(fun prof h => by cases h), (fun rp h => by cases h)⟩
  | some resp =>
    simp only []
    have hraw : ∀ body_str : String, body_str.length ≤ 2048 →
        RawProbe.redacted
          { probe_type := "qido_studies_limit_1"
            request := { url := qido_probe_url base, method := "GET",
                         headers := [("Accept", qido_accept)] }
            response := { status_code := resp.status_code
                          headers := resp.headers.filter
                            (fun kv => !(header_blacklist.contains (strToLower kv.1)))
                          body_preview := body_str } } := by
      intro body_str hlen
      refine ⟨?_, ⟨safe_headers_ok resp.headers, hlen⟩⟩
      intro kv hkv
      simp only [List.mem_cons, List.not_mem_nil, or_false] at hkv
      subst hkv
      decide
    have hlenb : (match resp.body with
        | none => ""
        | some b => strTake (Json.dumps b) 2048).length ≤ 2048 := by
      cases resp.body with
      | none => simp
      | some b => exact strTake_le _ _
    constructor
    · intro prof h
      split at h
      · injection h with hpq
        subst hpq
        intro kv hkv
        simp only [List.mem_cons, List.not_mem_nil, or_false] at hkv
        subst hkv
        exact ⟨show strToLower "qido_probe" ∉ header_blacklist by decide, hraw _ hlenb⟩
      · split at h
        · injection h with hpq
          subst hpq
          intro kv hkv
          simp only [List.mem_cons, List.not_mem_nil, or_false] at hkv
          subst hkv
          exact ⟨show strToLower "qido_probe" ∉ header_blacklist by decide, hraw _ hlenb⟩
        · cases h
    · intro rp h
      split at h
      · injection h with hpq
        subst hpq
        exact hraw _ hlenb
      · split at h
        · injection h with hpq
          subst hpq
          exact hraw _ hlenb
        · injection h with hpq
          subst hpq
          exact hraw _ hlenb

theorem setdefault_forall (hints : List (String × Hint)) (k : String) (v : Hint)
    (P : String × Hint → Prop) (hh : ∀ kv ∈ hints, P kv) (hv : P (k, v)) :
    ∀ kv ∈ setdefault hints k v, P kv := by
  intro kv hkv
  rw [setdefault] at hkv
  split at hkv
  · exact hh kv hkv
  · rcases List.mem_append.mp hkv with hkv1 | hkv2
    · exact hh kv hkv1
    · simp only [List.mem_singleton] at hkv2
      subst hkv2
      exact hv

theorem identify_vendor_fetch_redactionOk (fetch : Fetch) (base : String) :
    (identify_vendor_fetch fetch base).redactionOk := by
  rw [identify_vendor_fetch]
  cases ho : detect_orthanc fetch base with
  | some prof => exact detect_orthanc_redactionOk fetch base prof ho
  | none =>
    obtain ⟨hq1, hq2⟩ := detect_from_qido_redacted fetch base
    cases hd : detect_from_qido fetch base with
    | mk fst snd =>
      obtain ⟨sh, sig, raw⟩ := snd
      cases fst with
      | some qp =>
        have hqp : qp.redactionOk := hq1 qp (by rw [hd])
        cases raw with
        | some rp =>
          have hrp : rp.redacted := hq2 rp (by rw [hd])
          exact setdefault_forall _ _ _ _ hqp
            ⟨show strToLower "qido_probe" ∉ header_blacklist by decide, hrp⟩
        | none => exact hqp
      | none =>
        intro kv hkv
        simp only [List.mem_cons, List.not_mem_nil, or_false] at hkv
        rcases hkv with rfl | rfl | rfl | rfl
        · exact ⟨show strToLower "note" ∉ header_blacklist by decide, trivial⟩
        · exact ⟨show strToLower "server_header" ∉ header_blacklist by decide, trivial⟩
        · exact ⟨show strToLower "qido_signature" ∉ header_blacklist by decide, trivial⟩
        · cases raw with
          | some rp =>
            exact ⟨show strToLower "qido_probe" ∉ header_blacklist by decide,
              hq2 rp (by rw [hd])⟩
          | none =>
            exact ⟨show strToLower "qido_probe" ∉ header_blacklist by decide, trivial⟩

/-- C4: for every probe run (every transport behaviour), the returned
profile is redacted — no header name stored anywhere in it (in probe
request or response header mappings, or as a hint key) is in the
case-insensitive denylist, and every stored JSON body preview is at most
2048 characters; the output is independent of the supplied credentials
whenever the server's responses are (credentials enter only the transient
request parameters); and profile serialisation never emits a
`credentials` key. -/
theorem C4_redaction_and_credentials :
    (∀ (o : Oracle) (base_url : String) (username password : Option String),
      (identify_vendor o base_url username password).redactionOk) ∧
    (∀ (o : Oracle) (base_url : String) (u1 p1 u2 p2 : Option String),
      (∀ url a a', o url a = o url a') →
      identify_vendor o base_url u1 p1 = identify_vendor o base_url u2 p2) ∧
    (∀ prof : VendorProfile, "credentials" ∉ prof.to_dict.map Prod.fst) := by
  refine ⟨?_, ?_, ?_⟩
  · intro o base u p
    exact identify_vendor_fetch_redactionOk _ _
  · intro o base u1 p1 u2 p2 hauth
    rw [identify_vendor, identify_vendor]
    congr 1
    funext url
    exact hauth url _ _
  · intro prof hmem
    rw [VendorProfile.to_dict] at hmem
    rw [List.mem_map] at hmem
    obtain ⟨kv, hkv, hfst⟩ := hmem
    have hkv' := List.mem_of_mem_eraseP hkv
    simp only [List.mem_cons, List.not_mem_nil, or_false] at hkv'
    rcases hkv' with rfl | rfl | rfl | rfl | rfl | rfl | rfl | rfl
    · exact (by decide : ("vendor" : String) ≠ "credentials") hfst
    · exact (by decide : ("product" : String) ≠ "credentials") hfst
    · exact (by decide : ("version" : String) ≠ "credentials") hfst
    · exact (by decide : ("base_url" : String) ≠ "credentials") hfst
    · exact (by decide : ("detection_method" : String) ≠ "credentials") hfst
    · exact (by decide : ("server_header" : String) ≠ "credentials") hfst
    · exact (by decide : ("qido_signature" : String) ≠ "credentials") hfst
    · exact (by decide : ("additional_hints" : String) ≠ "credentials") hfst

/-- C4 witness: the guarantees instantiated at a concrete unreachable
transport and concrete credentials. -/
theorem C4_redaction_witness :
    (identify_vendor (fun _ _ => none) "http://example.com/dicom-web" none none).redactionOk ∧
    identify_vendor (fun _ _ => none) "http://example.com/dicom-web"
        (some "alice") (some "secret") =
      identify_vendor (fun _ _ => none) "http://example.com/dicom-web" none none ∧
    "credentials" ∉
      (VendorProfile.mk "V" "P" "1" "b" "d" "s" "q" []).to_dict.map Prod.fst := by
  obtain ⟨h1, h2, h3⟩ := C4_redaction_and_credentials
  exact ⟨h1 _ _ _ _, h2 _ _ _ _ _ _ (fun _ _ _ => rfl), h3 _⟩

/-- C5: the vendor identification function is total (it has type
`VendorProfile`, every transport failure being modelled as a `none`
response), and against an unreachable host — every request raises — it
returns the fallback profile: vendor `"Unknown"`, detection method
`"heuristic_unknown"`, and a `note` hint. -/
theorem C5_unreachable_host (o : Oracle) (base_url : String)
    (username password : Option String)
    (h : ∀ url auth, o url auth = none) :
    (identify_vendor o base_url username password).vendor = "Unknown" ∧
    (identify_vendor o base_url username password).product = "Unknown" ∧
    (identify_vendor o base_url username password).detection_method = "heuristic_unknown" ∧
    ((identify_vendor o base_url username password).additional_hints.find?
        (fun kv => kv.1 == "note")).isSome := by
  rw [identify_vendor, identify_vendor_fetch]
  have horth : detect_orthanc (fun url => o url (build_auth username password)) base_url
      = none := by
    rw [detect_orthanc, orthanc_candidates]
    simp [detect_orthanc_at, h, List.findSome?]
  have hqido : detect_from_qido (fun url => o url (build_auth username password)) base_url
      = (none, "", "", none) := by
    rw [detect_from_qido]
    simp [h]
  rw [horth, hqido]
  exact ⟨rfl, rfl, rfl, rfl⟩

/-- C5 witness: the unreachable-host conclusion at a concrete dead
transport. -/
theorem C5_unreachable_host_witness :
    (identify_vendor (fun _ _ => none) "http://example.com/dicom-web" none none).vendor
        = "Unknown" ∧
    (identify_vendor (fun _ _ => none) "http://example.com/dicom-web" none none).product
        = "Unknown" ∧
    (identify_vendor (fun _ _ => none) "http://example.com/dicom-web" none
        none).detection_method = "heuristic_unknown" ∧
    ((identify_vendor (fun _ _ => none) "http://example.com/dicom-web" none
        none).additional_hints.find? (fun kv => kv.1 == "note")).isSome :=
  C5_unreachable_host _ _ _ _ (fun _ _ => rfl)

end DicomwebTests
